import Mathlib

/-!
Verification of the ArtificialAMF image-synthesis feedback loop.

This file shallowly embeds the algorithmic core of the repository
(porosity measurement, margin checks, parameter adaptation, scene
generation, border correction, configuration loading and saving) as
executable Lean definitions, and proves or refutes the specification
claims about them.

Conventions of the embedding:
* Python/numpy floats are modelled as rationals (ℚ); Python ints as ℤ
  (or ℕ for counts/indices).
* `np.round` is modelled with its actual round-half-to-even behaviour.
* The process-wide random source is modelled as an explicit stream
  (`RandomSource`) with a draw counter threaded through the generation
  code; `np.random.randint(low, high)` fails (ValueError) exactly when
  `low ≥ high`, which is modelled in the `Except` monad.
* A grayscale image buffer is a flat `List ℚ` of pixel values for the
  porosity functions, and a row-major `List (List ℕ)` for the in-place
  border-correction pass.
-/

namespace ArtificialAMF

/-- `np.round`: round half to even (banker's rounding), as numpy does. -/
def npRound (x : ℚ) : ℤ :=
  let f := ⌊x⌋
  let frac := x - f
  if frac < 1/2 then f
  else if frac > 1/2 then f + 1
  else if f % 2 = 0 then f else f + 1

/-! ## porosity.py -/

/-- `Porosities` data container (porosity.py, lines 9-16).
`by_tracks` defaults to `None` in the source. -/
structure Porosities where
  total : ℚ
  by_foam_pores : ℚ
  by_tracks : Option ℚ := none
deriving DecidableEq

/-- `calculate_porostiy` (porosity.py, lines 25-30): percentage of pixels
below threshold, `100 / all_pixel * pixel_below_threshold`. -/
def calculate_porostiy (pixel_below_threshold : ℕ) (all_pixel : ℕ) : ℚ :=
  100 / all_pixel * pixel_below_threshold

/-- `calculate_porosity_w_threshold` (porosity.py, lines 44-48):
count pixels strictly below the threshold. -/
def calculate_porosity_w_threshold (flat_grayscale_image : List ℚ) (threshold : ℚ) : ℚ :=
  calculate_porostiy
    (flat_grayscale_image.countP (fun p => decide (p < threshold)))
    flat_grayscale_image.length

/-- `np.mean` of a flat buffer. -/
def npMean (l : List ℚ) : ℚ := l.sum / l.length

/-- `np.median` of a flat buffer: sort, middle element for odd length,
average of the two middle elements for even length. -/
def npMedian (l : List ℚ) : ℚ :=
  let s := l.insertionSort (· ≤ ·)
  let n := l.length
  if n % 2 = 1 then s.getD (n / 2) 0
  else (s.getD (n / 2 - 1) 0 + s.getD (n / 2) 0) / 2

/-- `calculate_porosity_w_mean` (porosity.py, lines 33-35). -/
def calculate_porosity_w_mean (flat_grayscale_image : List ℚ) : ℚ :=
  calculate_porosity_w_threshold flat_grayscale_image (npMean flat_grayscale_image)

/-- `calculate_porosity_w_median_plus_1` (porosity.py, lines 51-53). -/
def calculate_porosity_w_median_plus_1 (flat_grayscale_image : List ℚ) : ℚ :=
  calculate_porosity_w_threshold flat_grayscale_image (npMedian flat_grayscale_image + 1)

/-- `porosity_in_margin` (porosity.py, lines 62-71): the chained comparison
`desired + margin >= actual >= desired - margin`. -/
def porosity_in_margin (desired_porosity actual_porosity porosity_margin : ℚ) : Bool :=
  decide (desired_porosity + porosity_margin ≥ actual_porosity) &&
  decide (actual_porosity ≥ desired_porosity - porosity_margin)

/-! ## Helper lemmas on the porosity functions -/

theorem porosity_w_threshold_nonneg (img : List ℚ) (t : ℚ) :
    0 ≤ calculate_porosity_w_threshold img t := by
  unfold calculate_porosity_w_threshold calculate_porostiy
  positivity

theorem porosity_w_threshold_le_100 (img : List ℚ) (t : ℚ) (h : img ≠ []) :
    calculate_porosity_w_threshold img t ≤ 100 := by
  have hn : 0 < (img.length : ℚ) := by
    exact_mod_cast List.length_pos.mpr h
  have hc : ((img.countP (fun p => decide (p < t))) : ℚ) ≤ (img.length : ℚ) := by
    exact_mod_cast List.countP_le_length _
  unfold calculate_porosity_w_threshold calculate_porostiy
  rw [div_mul_eq_mul_div, div_le_iff₀ hn]
  nlinarith

theorem npMean_replicate (n : ℕ) (c : ℚ) (hn : n ≠ 0) :
    npMean (List.replicate n c) = c := by
  have h : (n : ℚ) ≠ 0 := by exact_mod_cast hn
  unfold npMean
  rw [List.sum_replicate, List.length_replicate, nsmul_eq_mul,
    mul_comm, mul_div_assoc, div_self h, mul_one]

theorem insertionSort_replicate (n : ℕ) (c : ℚ) :
    (List.replicate n c).insertionSort (· ≤ ·) = List.replicate n c := by
  have hp := List.perm_insertionSort (α := ℚ) (· ≤ ·) (List.replicate n c)
  refine List.eq_replicate_iff.mpr ⟨?_, ?_⟩
  · simp [hp.length_eq]
  · intro b hb
    exact List.eq_of_mem_replicate (hp.mem_iff.mp hb)

theorem getD_replicate_of_lt (n k : ℕ) (c : ℚ) (h : k < n) :
    (List.replicate n c).getD k 0 = c := by
  have hlen : k < (List.replicate n c).length := by simpa using h
  rw [List.getD_eq_getElem _ _ hlen]
  simp

theorem npMedian_replicate (n : ℕ) (c : ℚ) (hn : n ≠ 0) :
    npMedian (List.replicate n c) = c := by
  have hpos : 0 < n := Nat.pos_of_ne_zero hn
  unfold npMedian
  rw [insertionSort_replicate, List.length_replicate]
  by_cases hpar : n % 2 = 1
  · rw [if_pos hpar, getD_replicate_of_lt _ _ _ (Nat.div_lt_self hpos one_lt_two)]
  · rw [if_neg hpar]
    have h2 : 2 ≤ n := by omega
    rw [getD_replicate_of_lt _ _ _ (by omega : n / 2 - 1 < n),
      getD_replicate_of_lt _ _ _ (Nat.div_lt_self hpos one_lt_two)]
    ring

theorem countP_lt_self_replicate (n : ℕ) (c : ℚ) :
    (List.replicate n c).countP (fun p => decide (p < c)) = 0 := by
  rw [List.countP_eq_zero]
  intro a ha
  rw [List.eq_of_mem_replicate ha]
  simp

theorem countP_lt_succ_replicate (n : ℕ) (c : ℚ) :
    (List.replicate n c).countP (fun p => decide (p < npMedian (List.replicate n c) + 1))
      = n := by
  have h := List.countP_eq_length
    (l := List.replicate n c) (p := fun p => decide (p < npMedian (List.replicate n c) + 1))
  rcases Nat.eq_zero_or_pos n with h0 | h0
  · subst h0; simp
  · have hall : ∀ a ∈ List.replicate n c,
        decide (a < npMedian (List.replicate n c) + 1) = true := by
      intro a ha
      rw [List.eq_of_mem_replicate ha,
        npMedian_replicate _ _ (Nat.pos_iff_ne_zero.mp h0)]
      simp
    have hc := h.mpr hall
    rwa [List.length_replicate] at hc

/-! ## src/parameters.py: the data model -/

/-- The two porosity rules the loader recognizes (stored as function
references in the source; `calculate_porosity_w_mean` is the dataclass
default). -/
inductive PorosityRule where
  | w_mean
  | w_median_plus_1
deriving DecidableEq

/-- The `porosity_function` field of `Parameters`: normally a callable,
but `save_files` overwrites it with the function's name string. -/
inductive PorosityFnField where
  | callable (rule : PorosityRule)
  | fnName (s : String)
deriving DecidableEq

/-- Python `__name__` of the two porosity functions. -/
def porosity_function_name : PorosityRule → String
  | .w_mean => "calculate_porosity_w_mean"
  | .w_median_plus_1 => "calculate_porosity_w_median_plus_1"

/-- `Parameters` dataclass (src/parameters.py, lines 11-79).
Integers stay ℤ; values that the code makes fractional
(track means via `+= 0.5`, the center scaling factor) are ℚ. -/
structure Parameters where
  image_width : ℤ := 1360
  image_height : ℤ := 1024
  total_porosity_margin : ℚ := 1
  porosity_foam_pore_margin : ℚ := 2
  foam_pore_amount_adaption_threshold : ℚ := 3
  porosity_function : PorosityFnField := .callable .w_mean
  x_offset : ℤ := 25
  y_offset : ℤ := 10
  track_mean_width : ℚ := 50
  track_width_variation : ℚ := 1/5
  track_mean_height : ℚ := 40
  track_height_variation : ℚ := 2/25
  randomized_track_x_factor : ℤ := 5
  randomized_track_y_factor : ℤ := 4
  foam_pores_center_scaling_factor : ℚ := 50/3
  mean_diameter_of_foam_pores : ℤ := 5
  mean_foam_pores_per_track : ℤ := 8
  variation_of_foam_pores_per_track : ℤ := 4
  foam_pore_variation_of_diameter : ℚ := 4/5
deriving DecidableEq

/-- `UserConfig` dataclass (src/user_config.py, lines 9-23). -/
structure UserConfig where
  layer_height : ℤ
  layer_width_to_layer_height_ratio : ℚ
  desired_porosities : Porosities
  output_folder : String
deriving DecidableEq

/-! ## `Parameters.adapt_parameters` (src/parameters.py, lines 209-283) -/

/-- Track-geometry section of `adapt_parameters`
(src/parameters.py, lines 222-250). -/
def adapt_parameters_track_step (p : Parameters)
    (desired_porosities actual_porosities : Porosities) : Parameters :=
  if desired_porosities.by_foam_pores - p.porosity_foam_pore_margin
        < actual_porosities.by_foam_pores
      ∧ actual_porosities.by_foam_pores
        < desired_porosities.by_foam_pores + p.porosity_foam_pore_margin then
    -- foam pore porosity is in margin
    if |actual_porosities.total - desired_porosities.total| > 7 then
      if actual_porosities.total > desired_porosities.total then
        { p with track_mean_width := p.track_mean_width + 3,
                 track_mean_height := p.track_mean_height + 2 }
      else
        { p with track_mean_width := p.track_mean_width - 3,
                 track_mean_height := p.track_mean_height - 2 }
    else if actual_porosities.total > desired_porosities.total then
      { p with track_mean_width := p.track_mean_width + 1,
               track_mean_height := p.track_mean_height + 1/2 }
    else
      { p with track_mean_width := p.track_mean_width - 1,
               track_mean_height := p.track_mean_height - 1/2 }
  else
    if |actual_porosities.total - desired_porosities.total| > 10 then
      if actual_porosities.total > desired_porosities.total then
        { p with track_mean_width := p.track_mean_width + 3,
                 track_mean_height := p.track_mean_height + 2 }
      else
        { p with track_mean_width := p.track_mean_width - 3,
                 track_mean_height := p.track_mean_height - 2 }
    else if actual_porosities.total > desired_porosities.total then
      { p with track_mean_width := p.track_mean_width + 1,
               track_mean_height := p.track_mean_height + 1/2 }
    else
      { p with track_mean_width := p.track_mean_width - 1,
               track_mean_height := p.track_mean_height - 1/2 }

/-- Foam-pore section of `adapt_parameters`
(src/parameters.py, lines 252-279). -/
def adapt_parameters_foam_step (p : Parameters)
    (desired_porosities actual_porosities : Porosities) : Parameters :=
  let difference_in_foam_porosity :=
    actual_porosities.by_foam_pores - desired_porosities.by_foam_pores
  if |difference_in_foam_porosity| > p.porosity_foam_pore_margin then
    -- not in margin
    if difference_in_foam_porosity > 0 then
      -- calculated current porosity is too high -> less / smaller foam pores
      if difference_in_foam_porosity < p.foam_pore_amount_adaption_threshold
          ∧ p.mean_foam_pores_per_track < 10 then
        -- adapt size of pores
        let d := p.mean_diameter_of_foam_pores - 1
        { p with mean_diameter_of_foam_pores := if d ≤ 0 then 1 else d }
      else
        -- adapt amount of pores
        let m := p.mean_foam_pores_per_track - 1
        if m ≤ 0 then
          let v := p.variation_of_foam_pores_per_track - 1
          { p with mean_foam_pores_per_track := 1,
                   variation_of_foam_pores_per_track := if v < 0 then 0 else v }
        else
          { p with mean_foam_pores_per_track := m }
    else
      -- calculated current porosity is too low
      if |difference_in_foam_porosity| < p.foam_pore_amount_adaption_threshold then
        { p with mean_diameter_of_foam_pores := p.mean_diameter_of_foam_pores + 1 }
      else
        { p with mean_foam_pores_per_track := p.mean_foam_pores_per_track + 1 }
  else p

/-- `Parameters.adapt_parameters` (src/parameters.py, lines 209-283):
track step, foam step, the forced pore-count reset when the desired
foam-pore porosity is zero, and the re-derived center scaling factor
`int(np.round(track_mean_width / 3.0))`. -/
def adapt_parameters (p : Parameters)
    (desired_porosities actual_porosities : Porosities) : Parameters :=
  let p1 := adapt_parameters_track_step p desired_porosities actual_porosities
  let p2 := adapt_parameters_foam_step p1 desired_porosities actual_porosities
  let p3 := if desired_porosities.by_foam_pores = 0 then
      { p2 with mean_foam_pores_per_track := 0 }
    else p2
  { p3 with foam_pores_center_scaling_factor :=
      ((npRound (p3.track_mean_width / 3) : ℤ) : ℚ) }

/-! ## `border_correction` (src/utils.py, lines 43-60) -/

/-- Read pixel `(x, y)` of a row-major buffer (0 when out of range). -/
def getPix (img : List (List ℕ)) (x y : ℕ) : ℕ :=
  (img.getD x []).getD y 0

/-- Write pixel `(x, y)` of a row-major buffer. -/
def setPix (img : List (List ℕ)) (x y : ℕ) (v : ℕ) : List (List ℕ) :=
  img.set x ((img.getD x []).set y v)

/-- `border_correction` (src/utils.py, lines 43-60): in-place, row-major
pass; every pixel equal to 0 is replaced by the current value of its
diagonal neighbor `(xi+1, yi+1)`, clamped to `(width-2, height-2)` at the
far edges. `width` is `shape[0]` (the row count), `height` is `shape[1]`. -/
def border_correction (img_grey : List (List ℕ)) : List (List ℕ) :=
  let width := img_grey.length
  let height := (img_grey.getD 0 []).length
  (List.range width).foldl (fun im xi =>
    (List.range height).foldl (fun im yi =>
      if getPix im xi yi = 0 then
        let x_new := if xi = width - 1 then width - 2 else xi + 1
        let y_new := if yi = height - 1 then height - 2 else yi + 1
        setPix im xi yi (getPix im x_new y_new)
      else im) im) img_grey

/-! ## `UserConfig.load_from_file` (src/user_config.py, lines 25-91) -/

/-- The required keys of the `user_config` object
(src/user_config.py, line 60). -/
def needed_params : List String :=
  ["layer_height", "layer_width_to_layer_height_ratio", "output_folder",
   "desired_porosities"]

/-- The required keys of the nested `desired_porosities` object
(src/user_config.py, line 65). -/
def needed_porosity_params : List String := ["total", "by_foam_pores"]

/-- Key sets of a loaded user-config JSON document. -/
structure UserConfigDoc where
  has_user_config : Bool
  uc_keys : List String
  dp_keys : List String
deriving DecidableEq

/-- The validation section of `UserConfig.load_from_file`
(src/user_config.py, lines 54-70), returning the field name reported in
the red terminal message of the raised error. The nested loop reports the
stale outer loop variable `param` — which, once the first loop has
completed, is the LAST element of `needed_params` — instead of the inner
loop variable `p_param`. -/
def user_config_validate (doc : UserConfigDoc) : Except String Unit :=
  if ¬ doc.has_user_config then .error "user_config"
  else match needed_params.find? (fun param => ¬ doc.uc_keys.contains param) with
    | some param => .error param
    | none =>
      match needed_porosity_params.find? (fun p_param => ¬ doc.dp_keys.contains p_param) with
      | some _ => .error (needed_params.getLast!)
      | none => .ok ()

/-- The output-directory suffix conditional of `UserConfig.load_from_file`
(src/user_config.py, line 76): Python `not output_directory[-1] == '/' or '\\'`
parses as `(not (last == '/')) or '\\'`, and the non-empty string `'\\'` is
truthy, so the truthiness of the whole expression is the disjunction below. -/
def output_directory_suffix_cond (output_directory : String) : Bool :=
  !(decide (output_directory.back = '/')) || !(decide ("\\" = ""))

/-- The stored `output_folder` after the suffix handling
(src/user_config.py, lines 75-77). -/
def stored_output_folder (output_directory : String) : String :=
  if output_directory_suffix_cond output_directory then output_directory ++ "\\"
  else output_directory

/-! ## `Parameters.load_from_file` (src/parameters.py, lines 159-207) -/

/-- A loaded `parameters` JSON object: which keys are present, the value
of the rule-name string, and numeric field values (integer fields and
rational fields read through separate accessors). -/
structure ParameterDoc where
  keys : List String
  porosity_function_value : String
  intVal : String → ℤ
  ratVal : String → ℚ

/-- Python `parameter_file[k]`: `KeyError(k)` when the key is missing. -/
def getIntKey (doc : ParameterDoc) (k : String) : Except String ℤ :=
  if doc.keys.contains k then .ok (doc.intVal k) else .error k

/-- Python `parameter_file[k]` for a float-valued field. -/
def getRatKey (doc : ParameterDoc) (k : String) : Except String ℚ :=
  if doc.keys.contains k then .ok (doc.ratVal k) else .error k

/-- `Parameters.load_from_file` (src/parameters.py, lines 159-207), after
JSON parsing. Returns the built `Parameters` together with a flag that
records whether the red terminal message about an unsupported porosity
function was printed. An unrecognized rule name is only reported — the
load continues and the dataclass default `calculate_porosity_w_mean`
stays in place. A missing key raises `KeyError` naming that key. -/
def parameters_load_from_file (doc : ParameterDoc) :
    Except String (Parameters × Bool) := do
  let pf_name ← if doc.keys.contains "porosity_function"
    then Except.ok doc.porosity_function_value
    else Except.error "porosity_function"
  let (rule, reported) :=
    if pf_name = "calculate_porosity_w_mean" then (PorosityRule.w_mean, false)
    else if pf_name = "calculate_porosity_w_median" then (PorosityRule.w_median_plus_1, false)
    else (PorosityRule.w_mean, true)
  let image_width ← getIntKey doc "image_width"
  let image_height ← getIntKey doc "image_height"
  let total_porosity_margin ← getRatKey doc "total_porosity_margin"
  let porosity_foam_pore_margin ← getRatKey doc "porosity_foam_pore_margin"
  let foam_pore_amount_adaption_threshold ←
    getRatKey doc "foam_pore_amount_adaption_threshold"
  let x_offset ← getIntKey doc "x_offset"
  let y_offset ← getIntKey doc "y_offset"
  let track_mean_width ← getRatKey doc "track_mean_width"
  let track_width_variation ← getRatKey doc "track_width_variation"
  let track_mean_height ← getRatKey doc "track_mean_height"
  let track_height_variation ← getRatKey doc "track_height_variation"
  let randomized_track_x_factor ← getIntKey doc "randomized_track_x_factor"
  let randomized_track_y_factor ← getIntKey doc "randomized_track_y_factor"
  let foam_pores_center_scaling_factor ←
    getRatKey doc "foam_pores_center_scaling_factor"
  let mean_diameter_of_foam_pores ← getIntKey doc "mean_diameter_of_foam_pores"
  let mean_foam_pores_per_track ← getIntKey doc "mean_foam_pores_per_track"
  let variation_of_foam_pores_per_track ←
    getIntKey doc "variation_of_foam_pores_per_track"
  let foam_pore_variation_of_diameter :=
    if doc.keys.contains "foam_pore_variation_of_diameter"
    then doc.ratVal "foam_pore_variation_of_diameter"
    else 1
  Except.ok
    ({ image_width := image_width
       image_height := image_height
       total_porosity_margin := total_porosity_margin
       porosity_foam_pore_margin := porosity_foam_pore_margin
       foam_pore_amount_adaption_threshold := foam_pore_amount_adaption_threshold
       porosity_function := .callable rule
       x_offset := x_offset
       y_offset := y_offset
       track_mean_width := track_mean_width
       track_width_variation := track_width_variation
       track_mean_height := track_mean_height
       track_height_variation := track_height_variation
       randomized_track_x_factor := randomized_track_x_factor
       randomized_track_y_factor := randomized_track_y_factor
       foam_pores_center_scaling_factor := foam_pores_center_scaling_factor
       mean_diameter_of_foam_pores := mean_diameter_of_foam_pores
       mean_foam_pores_per_track := mean_foam_pores_per_track
       variation_of_foam_pores_per_track := variation_of_foam_pores_per_track
       foam_pore_variation_of_diameter := foam_pore_variation_of_diameter }, reported)

/-! ## `save_files` (src/utils.py, lines 157-178) and
`generate_image` (src/draw_routine.py, lines 20-84) -/

/-- The effect of `save_files` on its `Parameters` argument
(src/utils.py, line 171): the callable `porosity_function` is replaced by
the function's `__name__` string and never restored; no other field of
`parameters` is touched. -/
def save_files_parameters_effect (p : Parameters) : Parameters :=
  { p with porosity_function :=
      match p.porosity_function with
      | .callable rule => .fnName (porosity_function_name rule)
      | .fnName s => .fnName s }

/-- The acceptance check of `generate_image`
(src/draw_routine.py, lines 63-70): both the total and the foam-pore
porosity must pass `porosity_in_margin` against their margins. -/
def generate_image_accept (user_config : UserConfig) (p : Parameters)
    (actual_porosities : Porosities) : Bool :=
  porosity_in_margin user_config.desired_porosities.total
      actual_porosities.total p.total_porosity_margin &&
  porosity_in_margin user_config.desired_porosities.by_foam_pores
      actual_porosities.by_foam_pores p.porosity_foam_pore_margin

/-- What one accepted iteration of `generate_image` does to the caller's
`Parameters` (src/draw_routine.py, lines 70-73): with `save=True` it runs
`save_files` (which mutates the object), otherwise it leaves it alone. -/
def generate_image_accept_parameters_effect (p : Parameters) (save : Bool) : Parameters :=
  if save then save_files_parameters_effect p else p

/-! ## `generate_objects` (src/utils.py, lines 93-154) -/

/-- The process-wide random source, modelled as two streams indexed by a
draw counter: raw integers feeding `np.random.randint` and rational
values for `np.random.normal`. -/
structure RandomSource where
  ints : ℕ → ℤ
  normals : ℕ → ℚ

/-- `np.random.randint(low, high)` at draw counter `k`: raises
`ValueError` exactly when `low >= high`, otherwise yields a value in
`[low, high)` determined by the stream. -/
def randintE (rand : RandomSource) (low high : ℤ) (k : ℕ) :
    Except String (ℤ × ℕ) :=
  if low < high then .ok (low + (rand.ints k) % (high - low), k + 1)
  else .error "low >= high"

/-- `np.random.normal()` at draw counter `k`. -/
def normalE (rand : RandomSource) (k : ℕ) : ℚ × ℕ :=
  (rand.normals k, k + 1)

/-- A generated shape, recording the `BezierEllipse` constructor
arguments that `generate_objects` computes (src/ellipse.py, lines 15-26):
center, width, height, and whether the dark pore color was passed. -/
structure BezierEllipse where
  x : ℚ
  y : ℚ
  width : ℚ
  height : ℚ
  dark : Bool
deriving DecidableEq

/-- `draw_random_normal_int` (src/utils.py, lines 17-40): one normal
draw, clipped to `[-3, 3]`, scaled to `(high - low) / 6`, centered at the
middle of `[low, high]`, then `np.round`-ed. -/
def draw_random_normal_int (rand : RandomSource) (low high : ℤ) (k : ℕ) : ℤ × ℕ :=
  let (n0, k1) := normalE rand k
  let normal : ℚ := if n0 < -3 then -3 else if n0 > 3 then 3 else n0
  let scaling_factor : ℚ := ((high - low : ℤ) : ℚ) / 6
  let normal_scaled := normal * scaling_factor + ((low : ℚ) + ((high - low : ℤ) : ℚ) / 2)
  (npRound normal_scaled, k1)

/-- The foam-pore loop body of `generate_objects`
(src/utils.py, lines 135-152), iterated `count` times for one track cell. -/
def generate_foam_pores (rand : RandomSource) (p : Parameters) (x y : ℤ) :
    ℕ → ℕ → List BezierEllipse × ℕ
  | 0, k => ([], k)
  | n + 1, k =>
    let deviation_from_diameter :=
      npRound ((p.mean_diameter_of_foam_pores : ℚ) * p.foam_pore_variation_of_diameter)
    let low_foam_pore := p.mean_diameter_of_foam_pores - deviation_from_diameter
    let high_foam_pore := p.mean_diameter_of_foam_pores + deviation_from_diameter
    let (generated_width_foam_pore, k1) :=
      draw_random_normal_int rand low_foam_pore high_foam_pore k
    let (generated_height_foam_pore, k2) :=
      draw_random_normal_int rand low_foam_pore high_foam_pore k1
    let (nx, k3) := normalE rand k2
    let (ny, k4) := normalE rand k3
    let randomized_x_foam :=
      ((p.x_offset : ℚ) + (x : ℚ)) + nx * p.foam_pores_center_scaling_factor
    let randomized_y_foam :=
      ((p.y_offset : ℚ) + (y : ℚ)) + ny * p.foam_pores_center_scaling_factor
    let a_foam_pore : BezierEllipse :=
      { x := randomized_x_foam, y := randomized_y_foam,
        width := (generated_width_foam_pore : ℚ),
        height := (generated_height_foam_pore : ℚ), dark := true }
    let (rest, k5) := generate_foam_pores rand p x y n k4
    (a_foam_pore :: rest, k5)

/-- One grid-cell body of `generate_objects`
(src/utils.py, lines 114-152): the track draws, then — when the desired
foam-pore porosity is nonzero — the pore-count `randint` (which fails on
an empty range) and the pore loop. -/
def generate_cell (rand : RandomSource) (p : Parameters) (user_config : UserConfig)
    (x y : ℤ) (k : ℕ) : Except String (BezierEllipse × List BezierEllipse × ℕ) :=
  let absolute_track_width_variation := p.track_mean_width * p.track_width_variation
  match randintE rand
    ⌊p.track_mean_width - absolute_track_width_variation⌋
    ⌈p.track_mean_width + absolute_track_width_variation⌉ k with
  | .error e => .error e
  | .ok (generated_width, k1) =>
    let absolute_track_height_variation := p.track_mean_height * p.track_height_variation
    match randintE rand
      ⌊p.track_mean_height - absolute_track_height_variation⌋
      ⌈p.track_mean_height + absolute_track_height_variation⌉ k1 with
    | .error e => .error e
    | .ok (generated_height, k2) =>
      let (nx, k3) := normalE rand k2
      let (ny, k4) := normalE rand k3
      let randomized_x :=
        ((p.x_offset : ℚ) + (x : ℚ)) + nx * (p.randomized_track_x_factor : ℚ)
      let randomized_y :=
        ((p.y_offset : ℚ) + (y : ℚ)) + ny * (p.randomized_track_y_factor : ℚ)
      let track_pore : BezierEllipse :=
        { x := randomized_x, y := randomized_y,
          width := (generated_width : ℚ), height := (generated_height : ℚ),
          dark := false }
      if user_config.desired_porosities.by_foam_pores = 0 then
        .ok (track_pore, [], k4)
      else
        match randintE rand
          (p.mean_foam_pores_per_track - p.variation_of_foam_pores_per_track)
          (p.mean_foam_pores_per_track + p.variation_of_foam_pores_per_track) k4 with
        | .error e => .error e
        | .ok (count, k5) =>
          let (pores, k6) := generate_foam_pores rand p x y count.toNat k5
          .ok (track_pore, pores, k6)

/-- Python `range(0, stop, step)` for a positive step. -/
def pyRange (stop step : ℤ) : List ℤ :=
  if 0 < step then
    (List.range ((max stop 0 + step - 1) / step).toNat).map (fun (i : ℕ) => (i : ℤ) * step)
  else []

/-- The inner `for y in range(0, image_height, layer_height)` loop of
`generate_objects`, threading the draw counter and accumulating the
track and pore lists in append order. -/
def generate_column (rand : RandomSource) (p : Parameters) (user_config : UserConfig)
    (x : ℤ) : List ℤ → ℕ → Except String (List BezierEllipse × List BezierEllipse × ℕ)
  | [], k => .ok ([], [], k)
  | y :: ys, k =>
    match generate_cell rand p user_config x y k with
    | .error e => .error e
    | .ok (track, pores, k1) =>
      match generate_column rand p user_config x ys k1 with
      | .error e => .error e
      | .ok (tracks, poress, k2) => .ok (track :: tracks, pores ++ poress, k2)

/-- The outer `for x in range(0, image_width, layer_width)` loop of
`generate_objects`. -/
def generate_grid (rand : RandomSource) (p : Parameters) (user_config : UserConfig)
    (ys : List ℤ) : List ℤ → ℕ → Except String (List BezierEllipse × List BezierEllipse × ℕ)
  | [], k => .ok ([], [], k)
  | x :: xs, k =>
    match generate_column rand p user_config x ys k with
    | .error e => .error e
    | .ok (tracks, pores, k1) =>
      match generate_grid rand p user_config ys xs k1 with
      | .error e => .error e
      | .ok (tracks2, pores2, k2) => .ok (tracks ++ tracks2, pores ++ pores2, k2)

/-- `generate_objects` (src/utils.py, lines 93-154): derive the layer
width, validate both grid pitches, then walk the grid. Returns the track
and foam-pore object lists (and the final draw counter). -/
def generate_objects (rand : RandomSource) (p : Parameters) (user_config : UserConfig)
    (k : ℕ) : Except String (List BezierEllipse × List BezierEllipse × ℕ) :=
  let layer_width := npRound
    ((user_config.layer_height : ℚ) * user_config.layer_width_to_layer_height_ratio)
  if ¬ layer_width > 0 then
    .error "Layer width must not be zero or smaller! Check user config."
  else if ¬ user_config.layer_height > 0 then
    .error "Layer height must not be zero or smaller! Check user config!"
  else
    generate_grid rand p user_config
      (pyRange p.image_height user_config.layer_height)
      (pyRange p.image_width layer_width) k

/-! ## Claim theorems -/

theorem porosity_in_margin_iff (d a m : ℚ) :
    porosity_in_margin d a m = true ↔ |a - d| ≤ m := by
  unfold porosity_in_margin
  rw [Bool.and_eq_true, decide_eq_true_iff, decide_eq_true_iff, abs_sub_le_iff]
  constructor
  · rintro ⟨h1, h2⟩
    exact ⟨by linarith, by linarith⟩
  · rintro ⟨h1, h2⟩
    exact ⟨by linarith, by linarith⟩

/-- C7: `porosity_in_margin(desired, actual, margin)` is true exactly when
`|actual - desired| ≤ margin` (boundary inclusive): in particular
`porosity_in_margin(30, 31, 1.0)` is true and
`porosity_in_margin(30, 31.01, 1.0)` is false; and the `generate_image`
acceptance check passes exactly when both the total and the foam-pore
porosity pass this inclusive margin test against their margins. -/
theorem c7_margin_boundary_and_accept (d a m : ℚ) (user_config : UserConfig)
    (p : Parameters) (actual_porosities : Porosities) :
    (porosity_in_margin d a m = true ↔ |a - d| ≤ m) ∧
    porosity_in_margin 30 31 1 = true ∧
    porosity_in_margin 30 (3101/100) 1 = false ∧
    (generate_image_accept user_config p actual_porosities = true ↔
      (|actual_porosities.total - user_config.desired_porosities.total|
          ≤ p.total_porosity_margin ∧
       |actual_porosities.by_foam_pores - user_config.desired_porosities.by_foam_pores|
          ≤ p.porosity_foam_pore_margin)) := by
  refine ⟨porosity_in_margin_iff d a m, ?_, ?_, ?_⟩
  · rw [porosity_in_margin_iff, abs_sub_le_iff]
    norm_num
  · rw [Bool.eq_false_iff, Ne, porosity_in_margin_iff, abs_sub_le_iff]
    norm_num
  · unfold generate_image_accept
    rw [Bool.and_eq_true, porosity_in_margin_iff, porosity_in_margin_iff]

/-- C8: for every non-empty output-directory string, the suffix
conditional of `UserConfig.load_from_file` is true regardless of the last
character (Python parses it as `(not last == sep) or '\\'`, and the string
literal is truthy), so a separator is always appended to the stored
output folder. -/
theorem c8_separator_always_appended (s : String) (_h : s ≠ "") :
    output_directory_suffix_cond s = true ∧
    stored_output_folder s = s ++ "\\" := by
  have hc : output_directory_suffix_cond s = true := by
    unfold output_directory_suffix_cond
    simp
  refine ⟨hc, ?_⟩
  unfold stored_output_folder
  rw [hc]
  simp

def c8_sample_dir : String := "results/"

theorem c8_witness :
    c8_sample_dir ≠ "" ∧
    (output_directory_suffix_cond c8_sample_dir = true ∧
     stored_output_folder c8_sample_dir = c8_sample_dir ++ "\\") :=
  ⟨by decide, c8_separator_always_appended c8_sample_dir (by decide)⟩

/-- C10: `save_files` replaces the callable `porosity_function` field by
the function's name string (and never restores it), so after an accepted
`generate_image` run with `save=True` the caller's `Parameters` no longer
holds a callable porosity rule; every other `Parameters` field is left
unchanged by the save. -/
theorem c10_save_files_mutates_parameters (p : Parameters) (rule : PorosityRule)
    (h : p.porosity_function = .callable rule) :
    (save_files_parameters_effect p).porosity_function
        = .fnName (porosity_function_name rule) ∧
    (∀ r : PorosityRule,
      (save_files_parameters_effect p).porosity_function ≠ .callable r) ∧
    generate_image_accept_parameters_effect p true = save_files_parameters_effect p ∧
    generate_image_accept_parameters_effect p false = p ∧
    (save_files_parameters_effect p).image_width = p.image_width ∧
    (save_files_parameters_effect p).image_height = p.image_height ∧
    (save_files_parameters_effect p).total_porosity_margin = p.total_porosity_margin ∧
    (save_files_parameters_effect p).porosity_foam_pore_margin
        = p.porosity_foam_pore_margin ∧
    (save_files_parameters_effect p).foam_pore_amount_adaption_threshold
        = p.foam_pore_amount_adaption_threshold ∧
    (save_files_parameters_effect p).x_offset = p.x_offset ∧
    (save_files_parameters_effect p).y_offset = p.y_offset ∧
    (save_files_parameters_effect p).track_mean_width = p.track_mean_width ∧
    (save_files_parameters_effect p).track_width_variation = p.track_width_variation ∧
    (save_files_parameters_effect p).track_mean_height = p.track_mean_height ∧
    (save_files_parameters_effect p).track_height_variation
        = p.track_height_variation ∧
    (save_files_parameters_effect p).randomized_track_x_factor
        = p.randomized_track_x_factor ∧
    (save_files_parameters_effect p).randomized_track_y_factor
        = p.randomized_track_y_factor ∧
    (save_files_parameters_effect p).foam_pores_center_scaling_factor
        = p.foam_pores_center_scaling_factor ∧
    (save_files_parameters_effect p).mean_diameter_of_foam_pores
        = p.mean_diameter_of_foam_pores ∧
    (save_files_parameters_effect p).mean_foam_pores_per_track
        = p.mean_foam_pores_per_track ∧
    (save_files_parameters_effect p).variation_of_foam_pores_per_track
        = p.variation_of_foam_pores_per_track ∧
    (save_files_parameters_effect p).foam_pore_variation_of_diameter
        = p.foam_pore_variation_of_diameter := by
  refine ⟨?_, ?_, rfl, rfl, rfl, rfl, rfl, rfl, rfl, rfl, rfl, rfl, rfl, rfl,
    rfl, rfl, rfl, rfl, rfl, rfl, rfl, rfl⟩
  · simp [save_files_parameters_effect, h]
  · intro r
    simp [save_files_parameters_effect, h]

theorem c10_witness :
    (({} : Parameters).porosity_function = .callable .w_mean) ∧
    ((save_files_parameters_effect {}).porosity_function
        = .fnName (porosity_function_name .w_mean) ∧
     (∀ r : PorosityRule,
       (save_files_parameters_effect {}).porosity_function ≠ .callable r) ∧
     generate_image_accept_parameters_effect {} true
        = save_files_parameters_effect {} ∧
     generate_image_accept_parameters_effect {} false = ({} : Parameters) ∧
     (save_files_parameters_effect {}).image_width = ({} : Parameters).image_width ∧
     (save_files_parameters_effect {}).image_height = ({} : Parameters).image_height ∧
     (save_files_parameters_effect {}).total_porosity_margin
        = ({} : Parameters).total_porosity_margin ∧
     (save_files_parameters_effect {}).porosity_foam_pore_margin
        = ({} : Parameters).porosity_foam_pore_margin ∧
     (save_files_parameters_effect {}).foam_pore_amount_adaption_threshold
        = ({} : Parameters).foam_pore_amount_adaption_threshold ∧
     (save_files_parameters_effect {}).x_offset = ({} : Parameters).x_offset ∧
     (save_files_parameters_effect {}).y_offset = ({} : Parameters).y_offset ∧
     (save_files_parameters_effect {}).track_mean_width
        = ({} : Parameters).track_mean_width ∧
     (save_files_parameters_effect {}).track_width_variation
        = ({} : Parameters).track_width_variation ∧
     (save_files_parameters_effect {}).track_mean_height
        = ({} : Parameters).track_mean_height ∧
     (save_files_parameters_effect {}).track_height_variation
        = ({} : Parameters).track_height_variation ∧
     (save_files_parameters_effect {}).randomized_track_x_factor
        = ({} : Parameters).randomized_track_x_factor ∧
     (save_files_parameters_effect {}).randomized_track_y_factor
        = ({} : Parameters).randomized_track_y_factor ∧
     (save_files_parameters_effect {}).foam_pores_center_scaling_factor
        = ({} : Parameters).foam_pores_center_scaling_factor ∧
     (save_files_parameters_effect {}).mean_diameter_of_foam_pores
        = ({} : Parameters).mean_diameter_of_foam_pores ∧
     (save_files_parameters_effect {}).mean_foam_pores_per_track
        = ({} : Parameters).mean_foam_pores_per_track ∧
     (save_files_parameters_effect {}).variation_of_foam_pores_per_track
        = ({} : Parameters).variation_of_foam_pores_per_track ∧
     (save_files_parameters_effect {}).foam_pore_variation_of_diameter
        = ({} : Parameters).foam_pore_variation_of_diameter) :=
  ⟨rfl, c10_save_files_mutates_parameters {} .w_mean rfl⟩

theorem mean_rule_replicate (n : ℕ) (c : ℚ) (hn : n ≠ 0) :
    calculate_porosity_w_mean (List.replicate n c) = 0 := by
  unfold calculate_porosity_w_mean calculate_porosity_w_threshold
  rw [npMean_replicate _ _ hn, countP_lt_self_replicate]
  unfold calculate_porostiy
  simp

theorem median_rule_replicate (n : ℕ) (c : ℚ) (hn : n ≠ 0) :
    calculate_porosity_w_median_plus_1 (List.replicate n c) = 100 := by
  unfold calculate_porosity_w_median_plus_1 calculate_porosity_w_threshold
  rw [countP_lt_succ_replicate, List.length_replicate]
  unfold calculate_porostiy
  have hq : (n : ℚ) ≠ 0 := by exact_mod_cast hn
  field_simp

/-- C1 counterexample: under the mean rule an all-black buffer measures
0 (not 100), and under the median-plus-one rule an all-white buffer
measures 100 (not 0) — the thresholds are derived from the buffer's own
statistics, so constant buffers degenerate. -/
theorem c1_counterexample :
    calculate_porosity_w_mean [(0 : ℚ)] ≠ 100 ∧
    calculate_porosity_w_median_plus_1 [(255 : ℚ)] ≠ 0 := by
  have h1 := mean_rule_replicate 1 (0 : ℚ) one_ne_zero
  have h2 := median_rule_replicate 1 (255 : ℚ) one_ne_zero
  rw [List.replicate_one] at h1 h2
  rw [h1, h2]
  norm_num

/-- C1 amended: every measurement lies in [0, 100] under both rules, and
on every constant buffer (in particular all-white and all-black) the mean
rule returns 0 while the median-plus-one rule returns 100. -/
theorem c1_porosity_range_and_constant_buffers (img : List ℚ) (himg : img ≠ [])
    (n : ℕ) (c : ℚ) (hn : n ≠ 0) :
    (0 ≤ calculate_porosity_w_mean img ∧ calculate_porosity_w_mean img ≤ 100) ∧
    (0 ≤ calculate_porosity_w_median_plus_1 img ∧
      calculate_porosity_w_median_plus_1 img ≤ 100) ∧
    calculate_porosity_w_mean (List.replicate n c) = 0 ∧
    calculate_porosity_w_median_plus_1 (List.replicate n c) = 100 := by
  exact ⟨⟨porosity_w_threshold_nonneg _ _, porosity_w_threshold_le_100 _ _ himg⟩,
    ⟨porosity_w_threshold_nonneg _ _, porosity_w_threshold_le_100 _ _ himg⟩,
    mean_rule_replicate n c hn, median_rule_replicate n c hn⟩

theorem c1_witness :
    (([(7 : ℚ), 200] : List ℚ) ≠ [] ∧ (3 : ℕ) ≠ 0) ∧
    ((0 ≤ calculate_porosity_w_mean [(7 : ℚ), 200] ∧
        calculate_porosity_w_mean [(7 : ℚ), 200] ≤ 100) ∧
     (0 ≤ calculate_porosity_w_median_plus_1 [(7 : ℚ), 200] ∧
        calculate_porosity_w_median_plus_1 [(7 : ℚ), 200] ≤ 100) ∧
     calculate_porosity_w_mean (List.replicate 3 (255 : ℚ)) = 0 ∧
     calculate_porosity_w_median_plus_1 (List.replicate 3 (255 : ℚ)) = 100) :=
  ⟨⟨by simp, by decide⟩,
    c1_porosity_range_and_constant_buffers [(7 : ℚ), 200] (by simp) 3 255 (by decide)⟩

/-! ### C3: unknown porosity-rule name at load time -/

/-- All keys that `Parameters.load_from_file` reads unconditionally. -/
def required_parameter_keys : List String :=
  ["porosity_function", "image_width", "image_height", "total_porosity_margin",
   "porosity_foam_pore_margin", "foam_pore_amount_adaption_threshold", "x_offset",
   "y_offset", "track_mean_width", "track_width_variation", "track_mean_height",
   "track_height_variation", "randomized_track_x_factor",
   "randomized_track_y_factor", "foam_pores_center_scaling_factor",
   "mean_diameter_of_foam_pores", "mean_foam_pores_per_track",
   "variation_of_foam_pores_per_track"]

/-- A parameters document with every required key present but an
unrecognized porosity-rule name. -/
def bogus_rule_doc : ParameterDoc :=
  { keys := required_parameter_keys,
    porosity_function_value := "calculate_porosity_w_otsu",
    intVal := fun _ => 1,
    ratVal := fun _ => 1 }

/-- C3 counterexample: loading a configuration whose porosity-rule name
is unrecognized does NOT abort — a `Parameters` object with the defaulted
rule `calculate_porosity_w_mean` is returned (though the red message is
printed, recorded here as the `true` flag). -/
theorem c3_counterexample :
    parameters_load_from_file bogus_rule_doc =
      .ok ({ image_width := 1, image_height := 1, total_porosity_margin := 1,
             porosity_foam_pore_margin := 1,
             foam_pore_amount_adaption_threshold := 1,
             porosity_function := .callable .w_mean, x_offset := 1, y_offset := 1,
             track_mean_width := 1, track_width_variation := 1,
             track_mean_height := 1, track_height_variation := 1,
             randomized_track_x_factor := 1, randomized_track_y_factor := 1,
             foam_pores_center_scaling_factor := 1,
             mean_diameter_of_foam_pores := 1, mean_foam_pores_per_track := 1,
             variation_of_foam_pores_per_track := 1,
             foam_pore_variation_of_diameter := 1 }, true) := rfl

theorem except_bind_ok {ε α β : Type} (a : α) (f : α → Except ε β) :
    (Except.ok a : Except ε α) >>= f = f a := rfl

/-- C3 amended: when the configuration holds every required parameters
key but an unrecognized porosity-rule name, the condition is reported
(red terminal message) but the load is NOT aborted: `load_from_file`
returns a `Parameters` object whose porosity rule silently stays at the
dataclass default `calculate_porosity_w_mean`. -/
theorem c3_unknown_rule_reported_but_not_aborted (doc : ParameterDoc)
    (hkeys : ∀ kk ∈ required_parameter_keys, doc.keys.contains kk = true)
    (h1 : doc.porosity_function_value ≠ "calculate_porosity_w_mean")
    (h2 : doc.porosity_function_value ≠ "calculate_porosity_w_median") :
    ∃ params : Parameters,
      parameters_load_from_file doc = .ok (params, true) ∧
      params.porosity_function = .callable .w_mean := by
  have k01 := hkeys "porosity_function" (by simp [required_parameter_keys])
  have k02 := hkeys "image_width" (by simp [required_parameter_keys])
  have k03 := hkeys "image_height" (by simp [required_parameter_keys])
  have k04 := hkeys "total_porosity_margin" (by simp [required_parameter_keys])
  have k05 := hkeys "porosity_foam_pore_margin" (by simp [required_parameter_keys])
  have k06 := hkeys "foam_pore_amount_adaption_threshold"
    (by simp [required_parameter_keys])
  have k07 := hkeys "x_offset" (by simp [required_parameter_keys])
  have k08 := hkeys "y_offset" (by simp [required_parameter_keys])
  have k09 := hkeys "track_mean_width" (by simp [required_parameter_keys])
  have k10 := hkeys "track_width_variation" (by simp [required_parameter_keys])
  have k11 := hkeys "track_mean_height" (by simp [required_parameter_keys])
  have k12 := hkeys "track_height_variation" (by simp [required_parameter_keys])
  have k13 := hkeys "randomized_track_x_factor" (by simp [required_parameter_keys])
  have k14 := hkeys "randomized_track_y_factor" (by simp [required_parameter_keys])
  have k15 := hkeys "foam_pores_center_scaling_factor"
    (by simp [required_parameter_keys])
  have k16 := hkeys "mean_diameter_of_foam_pores" (by simp [required_parameter_keys])
  have k17 := hkeys "mean_foam_pores_per_track" (by simp [required_parameter_keys])
  have k18 := hkeys "variation_of_foam_pores_per_track"
    (by simp [required_parameter_keys])
  unfold parameters_load_from_file getIntKey getRatKey
  simp only [k01, k02, k03, k04, k05, k06, k07, k08, k09, k10, k11, k12, k13,
    k14, k15, k16, k17, k18, if_true, if_neg h1, if_neg h2, except_bind_ok]
  exact ⟨_, rfl, rfl⟩

theorem c3_witness :
    (∀ kk ∈ required_parameter_keys, bogus_rule_doc.keys.contains kk = true) ∧
    (∃ params : Parameters,
      parameters_load_from_file bogus_rule_doc = .ok (params, true) ∧
      params.porosity_function = .callable .w_mean) :=
  ⟨by decide, c3_unknown_rule_reported_but_not_aborted bogus_rule_doc
    (by decide) (by decide) (by decide)⟩

/-! ### C6: missing required configuration fields -/

/-- A config document whose `user_config` object is complete but whose
nested `desired_porosities` object is missing the required key
`"total"`. -/
def missing_total_doc : UserConfigDoc :=
  { has_user_config := true,
    uc_keys := needed_params,
    dp_keys := ["by_foam_pores"] }

/-- A config document whose `user_config` object is missing
`"output_folder"`. -/
def missing_output_folder_doc : UserConfigDoc :=
  { has_user_config := true,
    uc_keys := ["layer_height", "layer_width_to_layer_height_ratio",
                "desired_porosities"],
    dp_keys := ["total", "by_foam_pores"] }

/-- C6: loading does fail fast on every missing field, and a missing
top-level `user_config` field is reported by name; but for a missing
nested `desired_porosities` field the raised error's message names the
stale outer loop variable — `"desired_porosities"`, a field that IS
present — instead of the actually missing `"total"`/`"by_foam_pores"`
(the message interpolates `param` where `p_param` was intended). -/
theorem c6_stale_variable_in_nested_error :
    user_config_validate missing_output_folder_doc = .error "output_folder" ∧
    user_config_validate missing_total_doc = .error "desired_porosities" ∧
    missing_total_doc.uc_keys.contains "desired_porosities" = true ∧
    missing_total_doc.dp_keys.contains "total" = false :=
  ⟨rfl, rfl, rfl, rfl⟩

/-! ### C5: border correction idempotence -/

/-- A 3x3 buffer on which border correction is not idempotent: the pixel
at (0,0) keeps the value 0 on the first pass (its diagonal neighbor is
still 0 when it is visited) and only gets replaced on the second pass. -/
def c5_input : List (List ℕ) := [[0, 9, 9], [9, 0, 9], [9, 9, 5]]

/-- C5 counterexample: `border_correction` applied to an
already-corrected buffer (the output of `border_correction` on
`c5_input`) changes it again, so the function is not idempotent on
corrected buffers. -/
theorem c5_counterexample :
    border_correction (border_correction c5_input) ≠ border_correction c5_input := by
  decide

theorem foldl_fixed {α β : Type} (f : α → β → α) (l : List β) (a : α)
    (h : ∀ b ∈ l, f a b = a) : l.foldl f a = a := by
  induction l with
  | nil => rfl
  | cons b bs ih =>
    rw [List.foldl_cons, h b (List.mem_cons_self b bs)]
    exact ih (fun c hc => h c (List.mem_cons_of_mem b hc))

/-- `border_correction` leaves a buffer without zero-valued pixels
untouched. -/
theorem border_correction_id_of_no_zero (img : List (List ℕ))
    (h : ∀ x < img.length, ∀ y < (img.getD 0 []).length, getPix img x y ≠ 0) :
    border_correction img = img := by
  unfold border_correction
  refine foldl_fixed _ _ _ (fun xi hxi => ?_)
  refine foldl_fixed _ _ _ (fun yi hyi => ?_)
  rw [if_neg (h xi (List.mem_range.mp hxi) yi (List.mem_range.mp hyi))]

/-- C5 amended: `border_correction` is idempotent on those corrected
buffers that contain no zero-valued pixels (it is the identity there).
In general a corrected buffer may still contain zeros — a zero pixel
whose diagonal neighbor was itself still zero when visited survives the
pass — and a second application then changes the buffer, as the
counterexample shows. -/
theorem c5_idempotent_on_zero_free_output (img : List (List ℕ))
    (h : ∀ x < (border_correction img).length,
      ∀ y < ((border_correction img).getD 0 []).length,
      getPix (border_correction img) x y ≠ 0) :
    border_correction (border_correction img) = border_correction img :=
  border_correction_id_of_no_zero (border_correction img) h

def c5_witness_input : List (List ℕ) := [[0, 2], [3, 4]]

theorem c5_witness :
    (∀ x < (border_correction c5_witness_input).length,
      ∀ y < ((border_correction c5_witness_input).getD 0 []).length,
      getPix (border_correction c5_witness_input) x y ≠ 0) ∧
    border_correction (border_correction c5_witness_input)
      = border_correction c5_witness_input :=
  ⟨by decide, c5_idempotent_on_zero_free_output c5_witness_input (by decide)⟩

/-! ### C2 and C4: the adaptation rule -/

/-- The track section of `adapt_parameters` only touches the track mean
width/height. -/
theorem track_step_foam_fields (p : Parameters) (d a : Porosities) :
    (adapt_parameters_track_step p d a).porosity_foam_pore_margin
        = p.porosity_foam_pore_margin ∧
    (adapt_parameters_track_step p d a).foam_pore_amount_adaption_threshold
        = p.foam_pore_amount_adaption_threshold ∧
    (adapt_parameters_track_step p d a).mean_diameter_of_foam_pores
        = p.mean_diameter_of_foam_pores ∧
    (adapt_parameters_track_step p d a).mean_foam_pores_per_track
        = p.mean_foam_pores_per_track ∧
    (adapt_parameters_track_step p d a).variation_of_foam_pores_per_track
        = p.variation_of_foam_pores_per_track := by
  unfold adapt_parameters_track_step
  split_ifs <;> exact ⟨rfl, rfl, rfl, rfl, rfl⟩

/-- The foam section of `adapt_parameters` only touches the foam-pore
fields. -/
theorem foam_step_track_fields (p : Parameters) (d a : Porosities) :
    (adapt_parameters_foam_step p d a).track_mean_width = p.track_mean_width ∧
    (adapt_parameters_foam_step p d a).track_mean_height = p.track_mean_height := by
  unfold adapt_parameters_foam_step
  dsimp only
  split_ifs <;> exact ⟨rfl, rfl⟩

/-- The final lines of `adapt_parameters` do not change the track mean
width/height, and — when the desired foam-pore porosity is nonzero — do
not change the foam-pore fields either. -/
theorem adapt_parameters_final_fields (p : Parameters) (d a : Porosities) :
    (adapt_parameters p d a).track_mean_width
        = (adapt_parameters_foam_step (adapt_parameters_track_step p d a) d a).track_mean_width ∧
    (adapt_parameters p d a).track_mean_height
        = (adapt_parameters_foam_step (adapt_parameters_track_step p d a) d a).track_mean_height := by
  unfold adapt_parameters
  dsimp only
  split_ifs <;> exact ⟨rfl, rfl⟩

theorem adapt_parameters_final_foam_fields (p : Parameters) (d a : Porosities)
    (hd : d.by_foam_pores ≠ 0) :
    (adapt_parameters p d a).mean_diameter_of_foam_pores
        = (adapt_parameters_foam_step (adapt_parameters_track_step p d a) d a).mean_diameter_of_foam_pores ∧
    (adapt_parameters p d a).mean_foam_pores_per_track
        = (adapt_parameters_foam_step (adapt_parameters_track_step p d a) d a).mean_foam_pores_per_track ∧
    (adapt_parameters p d a).variation_of_foam_pores_per_track
        = (adapt_parameters_foam_step (adapt_parameters_track_step p d a) d a).variation_of_foam_pores_per_track := by
  unfold adapt_parameters
  dsimp only
  rw [if_neg hd]
  exact ⟨rfl, rfl, rfl⟩

def c2_parameters : Parameters := {}

def c2_desired : Porosities := { total := 50, by_foam_pores := 0 }

def c2_actual : Porosities := { total := 60, by_foam_pores := 0 }

/-- C2 counterexample: with the measured foam porosity inside its margin
(desired 0, measured 0) and the measured total porosity 10 points above
the desired one, `adapt_parameters` INCREASES `track_mean_width` (50 → 53)
and `track_mean_height` (40 → 42); it does not decrease them. -/
theorem c2_counterexample :
    ¬ ((adapt_parameters c2_parameters c2_desired c2_actual).track_mean_width
          < c2_parameters.track_mean_width ∧
       (adapt_parameters c2_parameters c2_desired c2_actual).track_mean_height
          < c2_parameters.track_mean_height) ∧
    (adapt_parameters c2_parameters c2_desired c2_actual).track_mean_width = 53 ∧
    (adapt_parameters c2_parameters c2_desired c2_actual).track_mean_height = 42 := by
  have hw : (adapt_parameters c2_parameters c2_desired c2_actual).track_mean_width = 53 := by
    rw [(adapt_parameters_final_fields c2_parameters c2_desired c2_actual).1,
      (foam_step_track_fields _ c2_desired c2_actual).1]
    unfold adapt_parameters_track_step c2_parameters c2_desired c2_actual
    norm_num
  have hh : (adapt_parameters c2_parameters c2_desired c2_actual).track_mean_height = 42 := by
    rw [(adapt_parameters_final_fields c2_parameters c2_desired c2_actual).2,
      (foam_step_track_fields _ c2_desired c2_actual).2]
    unfold adapt_parameters_track_step c2_parameters c2_desired c2_actual
    norm_num
  refine ⟨?_, hw, hh⟩
  rw [hw, hh]
  unfold c2_parameters
  norm_num

/-- C2 amended: in that parameter state one call to `adapt_parameters`
strictly INCREASES `track_mean_width` (by 3) and `track_mean_height`
(by 2) — growing the tracks is the direction that reduces the measured
total porosity. -/
theorem c2_track_growth_when_total_too_high (p : Parameters) (d a : Porosities)
    (h1 : d.by_foam_pores - p.porosity_foam_pore_margin < a.by_foam_pores)
    (h2 : a.by_foam_pores < d.by_foam_pores + p.porosity_foam_pore_margin)
    (h3 : a.total - d.total > 7) :
    (adapt_parameters p d a).track_mean_width = p.track_mean_width + 3 ∧
    (adapt_parameters p d a).track_mean_height = p.track_mean_height + 2 ∧
    p.track_mean_width < (adapt_parameters p d a).track_mean_width ∧
    p.track_mean_height < (adapt_parameters p d a).track_mean_height := by
  have habs : |a.total - d.total| > 7 := by
    rw [abs_of_pos (by linarith)]
    exact h3
  have hgt : a.total > d.total := by linarith
  have htrack : (adapt_parameters_track_step p d a).track_mean_width
        = p.track_mean_width + 3 ∧
      (adapt_parameters_track_step p d a).track_mean_height
        = p.track_mean_height + 2 := by
    unfold adapt_parameters_track_step
    rw [if_pos ⟨h1, h2⟩, if_pos habs, if_pos hgt]
    exact ⟨rfl, rfl⟩
  have hw : (adapt_parameters p d a).track_mean_width = p.track_mean_width + 3 := by
    rw [(adapt_parameters_final_fields p d a).1,
      (foam_step_track_fields _ d a).1, htrack.1]
  have hh : (adapt_parameters p d a).track_mean_height = p.track_mean_height + 2 := by
    rw [(adapt_parameters_final_fields p d a).2,
      (foam_step_track_fields _ d a).2, htrack.2]
  exact ⟨hw, hh, by rw [hw]; linarith, by rw [hh]; linarith⟩

theorem c2_witness :
    (c2_desired.by_foam_pores - c2_parameters.porosity_foam_pore_margin
        < c2_actual.by_foam_pores ∧
     c2_actual.by_foam_pores
        < c2_desired.by_foam_pores + c2_parameters.porosity_foam_pore_margin ∧
     c2_actual.total - c2_desired.total > 7) ∧
    ((adapt_parameters c2_parameters c2_desired c2_actual).track_mean_width
        = c2_parameters.track_mean_width + 3 ∧
     (adapt_parameters c2_parameters c2_desired c2_actual).track_mean_height
        = c2_parameters.track_mean_height + 2 ∧
     c2_parameters.track_mean_width
        < (adapt_parameters c2_parameters c2_desired c2_actual).track_mean_width ∧
     c2_parameters.track_mean_height
        < (adapt_parameters c2_parameters c2_desired c2_actual).track_mean_height) :=
  ⟨⟨by norm_num [c2_parameters, c2_desired, c2_actual],
    by norm_num [c2_parameters, c2_desired, c2_actual],
    by norm_num [c2_desired, c2_actual]⟩,
   c2_track_growth_when_total_too_high c2_parameters c2_desired c2_actual
     (by norm_num [c2_parameters, c2_desired, c2_actual])
     (by norm_num [c2_parameters, c2_desired, c2_actual])
     (by norm_num [c2_desired, c2_actual])⟩

theorem foam_step_size_shrink (p : Parameters) (d a : Porosities)
    (hm : |a.by_foam_pores - d.by_foam_pores| > p.porosity_foam_pore_margin)
    (hpos : a.by_foam_pores - d.by_foam_pores > 0)
    (hsm : a.by_foam_pores - d.by_foam_pores < p.foam_pore_amount_adaption_threshold)
    (hct : p.mean_foam_pores_per_track < 10) :
    (adapt_parameters_foam_step p d a).mean_diameter_of_foam_pores
        = (if p.mean_diameter_of_foam_pores - 1 ≤ 0 then 1
           else p.mean_diameter_of_foam_pores - 1) ∧
    (adapt_parameters_foam_step p d a).mean_foam_pores_per_track
        = p.mean_foam_pores_per_track ∧
    (adapt_parameters_foam_step p d a).variation_of_foam_pores_per_track
        = p.variation_of_foam_pores_per_track := by
  unfold adapt_parameters_foam_step
  dsimp only
  rw [if_pos hm, if_pos hpos, if_pos ⟨hsm, hct⟩]
  exact ⟨rfl, rfl, rfl⟩

theorem foam_step_amount_shrink (p : Parameters) (d a : Porosities)
    (hm : |a.by_foam_pores - d.by_foam_pores| > p.porosity_foam_pore_margin)
    (hpos : a.by_foam_pores - d.by_foam_pores > 0)
    (hnot : ¬ (a.by_foam_pores - d.by_foam_pores
          < p.foam_pore_amount_adaption_threshold
        ∧ p.mean_foam_pores_per_track < 10)) :
    (adapt_parameters_foam_step p d a).mean_diameter_of_foam_pores
        = p.mean_diameter_of_foam_pores ∧
    (adapt_parameters_foam_step p d a).mean_foam_pores_per_track
        = (if p.mean_foam_pores_per_track - 1 ≤ 0 then 1
           else p.mean_foam_pores_per_track - 1) ∧
    (adapt_parameters_foam_step p d a).variation_of_foam_pores_per_track
        = (if p.mean_foam_pores_per_track - 1 ≤ 0 then
             (if p.variation_of_foam_pores_per_track - 1 < 0 then 0
              else p.variation_of_foam_pores_per_track - 1)
           else p.variation_of_foam_pores_per_track) := by
  unfold adapt_parameters_foam_step
  dsimp only
  rw [if_pos hm, if_pos hpos, if_neg hnot]
  split_ifs <;> exact ⟨rfl, rfl, rfl⟩

theorem foam_step_size_grow (p : Parameters) (d a : Porosities)
    (hm : |a.by_foam_pores - d.by_foam_pores| > p.porosity_foam_pore_margin)
    (hneg : ¬ a.by_foam_pores - d.by_foam_pores > 0)
    (hsm : |a.by_foam_pores - d.by_foam_pores|
        < p.foam_pore_amount_adaption_threshold) :
    (adapt_parameters_foam_step p d a).mean_diameter_of_foam_pores
        = p.mean_diameter_of_foam_pores + 1 ∧
    (adapt_parameters_foam_step p d a).mean_foam_pores_per_track
        = p.mean_foam_pores_per_track ∧
    (adapt_parameters_foam_step p d a).variation_of_foam_pores_per_track
        = p.variation_of_foam_pores_per_track := by
  unfold adapt_parameters_foam_step
  dsimp only
  rw [if_pos hm, if_neg hneg, if_pos hsm]
  exact ⟨rfl, rfl, rfl⟩

theorem foam_step_amount_grow (p : Parameters) (d a : Porosities)
    (hm : |a.by_foam_pores - d.by_foam_pores| > p.porosity_foam_pore_margin)
    (hneg : ¬ a.by_foam_pores - d.by_foam_pores > 0)
    (hbig : ¬ |a.by_foam_pores - d.by_foam_pores|
        < p.foam_pore_amount_adaption_threshold) :
    (adapt_parameters_foam_step p d a).mean_diameter_of_foam_pores
        = p.mean_diameter_of_foam_pores ∧
    (adapt_parameters_foam_step p d a).mean_foam_pores_per_track
        = p.mean_foam_pores_per_track + 1 ∧
    (adapt_parameters_foam_step p d a).variation_of_foam_pores_per_track
        = p.variation_of_foam_pores_per_track := by
  unfold adapt_parameters_foam_step
  dsimp only
  rw [if_pos hm, if_neg hneg, if_neg hbig]
  exact ⟨rfl, rfl, rfl⟩

def c4_parameters : Parameters := { mean_foam_pores_per_track := 10 }

def c4_desired : Porosities := { total := 50, by_foam_pores := 10 }

def c4_actual : Porosities := { total := 50, by_foam_pores := 25/2 }

/-- C4 counterexample: with the foam-porosity gap (2.5) above the margin
(2) and below the amount-adaption threshold (3) — the claim's
size-adjustment case — but the current mean pore count at 10, the code
adjusts the AMOUNT (10 → 9) and leaves the diameter unchanged: the
decision also requires `mean_foam_pores_per_track < 10`, which the claim
omits. -/
theorem c4_counterexample :
    |c4_actual.by_foam_pores - c4_desired.by_foam_pores|
        > c4_parameters.porosity_foam_pore_margin ∧
    |c4_actual.by_foam_pores - c4_desired.by_foam_pores|
        < c4_parameters.foam_pore_amount_adaption_threshold ∧
    (adapt_parameters c4_parameters c4_desired c4_actual).mean_foam_pores_per_track
        = 9 ∧
    (adapt_parameters c4_parameters c4_desired c4_actual).mean_diameter_of_foam_pores
        = c4_parameters.mean_diameter_of_foam_pores := by
  obtain ⟨e1, e2, e3, e4, e5⟩ := track_step_foam_fields c4_parameters c4_desired c4_actual
  obtain ⟨f1, f2, f3⟩ := adapt_parameters_final_foam_fields c4_parameters c4_desired
    c4_actual (by norm_num [c4_desired])
  obtain ⟨g1, g2, g3⟩ := foam_step_amount_shrink
    (adapt_parameters_track_step c4_parameters c4_desired c4_actual) c4_desired c4_actual
    (by rw [e1]; norm_num [c4_parameters, c4_desired, c4_actual, lt_abs])
    (by norm_num [c4_desired, c4_actual])
    (by rw [e4]; norm_num [c4_parameters])
  refine ⟨by norm_num [c4_parameters, c4_desired, c4_actual, lt_abs],
    by norm_num [c4_parameters, c4_desired, c4_actual, abs_lt], ?_, ?_⟩
  · rw [f2, g2, e4]
    norm_num [c4_parameters]
  · rw [f1, g1, e3]

/-- C4 amended: under `|measured - desired| > porosity_foam_pore_margin`
and a nonzero desired foam-pore porosity, the foam adaptation behaves as
claimed EXCEPT that the size-adjustment case additionally requires the
current mean pore count to be below 10: when the measured porosity is too
high, the diameter shrinks by 1 (floored at 1) with the count untouched
only if the gap is below the threshold AND the count is < 10; otherwise
the count shrinks by 1 (floored at 1, with the count-variation spread
reduced, floored at 0, when the count collapses); when the measured
porosity is too low, the gap-below-threshold case grows the diameter by 1
(no flooring needed) with the count untouched, and otherwise the count
grows by 1. -/
theorem c4_foam_adaption_cases (p : Parameters) (d a : Porosities)
    (hm : |a.by_foam_pores - d.by_foam_pores| > p.porosity_foam_pore_margin)
    (hd : d.by_foam_pores ≠ 0) :
    (a.by_foam_pores - d.by_foam_pores > 0 →
      a.by_foam_pores - d.by_foam_pores < p.foam_pore_amount_adaption_threshold →
      p.mean_foam_pores_per_track < 10 →
      (adapt_parameters p d a).mean_diameter_of_foam_pores
          = (if p.mean_diameter_of_foam_pores - 1 ≤ 0 then 1
             else p.mean_diameter_of_foam_pores - 1) ∧
      (adapt_parameters p d a).mean_foam_pores_per_track
          = p.mean_foam_pores_per_track ∧
      (adapt_parameters p d a).variation_of_foam_pores_per_track
          = p.variation_of_foam_pores_per_track) ∧
    (a.by_foam_pores - d.by_foam_pores > 0 →
      ¬ (a.by_foam_pores - d.by_foam_pores < p.foam_pore_amount_adaption_threshold
          ∧ p.mean_foam_pores_per_track < 10) →
      (adapt_parameters p d a).mean_diameter_of_foam_pores
          = p.mean_diameter_of_foam_pores ∧
      (adapt_parameters p d a).mean_foam_pores_per_track
          = (if p.mean_foam_pores_per_track - 1 ≤ 0 then 1
             else p.mean_foam_pores_per_track - 1) ∧
      (adapt_parameters p d a).variation_of_foam_pores_per_track
          = (if p.mean_foam_pores_per_track - 1 ≤ 0 then
               (if p.variation_of_foam_pores_per_track - 1 < 0 then 0
                else p.variation_of_foam_pores_per_track - 1)
             else p.variation_of_foam_pores_per_track)) ∧
    (¬ a.by_foam_pores - d.by_foam_pores > 0 →
      |a.by_foam_pores - d.by_foam_pores| < p.foam_pore_amount_adaption_threshold →
      (adapt_parameters p d a).mean_diameter_of_foam_pores
          = p.mean_diameter_of_foam_pores + 1 ∧
      (adapt_parameters p d a).mean_foam_pores_per_track
          = p.mean_foam_pores_per_track ∧
      (adapt_parameters p d a).variation_of_foam_pores_per_track
          = p.variation_of_foam_pores_per_track) ∧
    (¬ a.by_foam_pores - d.by_foam_pores > 0 →
      ¬ |a.by_foam_pores - d.by_foam_pores| < p.foam_pore_amount_adaption_threshold →
      (adapt_parameters p d a).mean_diameter_of_foam_pores
          = p.mean_diameter_of_foam_pores ∧
      (adapt_parameters p d a).mean_foam_pores_per_track
          = p.mean_foam_pores_per_track + 1 ∧
      (adapt_parameters p d a).variation_of_foam_pores_per_track
          = p.variation_of_foam_pores_per_track) := by
  obtain ⟨e1, e2, e3, e4, e5⟩ := track_step_foam_fields p d a
  obtain ⟨f1, f2, f3⟩ := adapt_parameters_final_foam_fields p d a hd
  refine ⟨?_, ?_, ?_, ?_⟩
  · intro hpos hsm hct
    obtain ⟨g1, g2, g3⟩ := foam_step_size_shrink
      (adapt_parameters_track_step p d a) d a
      (by rw [e1]; exact hm) hpos (by rw [e2]; exact hsm) (by rw [e4]; exact hct)
    rw [f1, f2, f3, g1, g2, g3, e3, e4, e5]
    exact ⟨rfl, rfl, rfl⟩
  · intro hpos hnot
    obtain ⟨g1, g2, g3⟩ := foam_step_amount_shrink
      (adapt_parameters_track_step p d a) d a
      (by rw [e1]; exact hm) hpos (by rw [e2, e4]; exact hnot)
    rw [f1, f2, f3, g1, g2, g3, e3, e4, e5]
    exact ⟨rfl, rfl, rfl⟩
  · intro hneg hsm
    obtain ⟨g1, g2, g3⟩ := foam_step_size_grow
      (adapt_parameters_track_step p d a) d a
      (by rw [e1]; exact hm) hneg (by rw [e2]; exact hsm)
    rw [f1, f2, f3, g1, g2, g3, e3, e4, e5]
    exact ⟨rfl, rfl, rfl⟩
  · intro hneg hbig
    obtain ⟨g1, g2, g3⟩ := foam_step_amount_grow
      (adapt_parameters_track_step p d a) d a
      (by rw [e1]; exact hm) hneg (by rw [e2]; exact hbig)
    rw [f1, f2, f3, g1, g2, g3, e3, e4, e5]
    exact ⟨rfl, rfl, rfl⟩

def c4w_parameters : Parameters := {}

def c4w_desired : Porosities := { total := 50, by_foam_pores := 10 }

def c4w_actual : Porosities := { total := 50, by_foam_pores := 49/4 }

theorem c4_witness :
    (|c4w_actual.by_foam_pores - c4w_desired.by_foam_pores|
        > c4w_parameters.porosity_foam_pore_margin ∧
     c4w_desired.by_foam_pores ≠ 0) ∧
    ((c4w_actual.by_foam_pores - c4w_desired.by_foam_pores > 0 →
      c4w_actual.by_foam_pores - c4w_desired.by_foam_pores
          < c4w_parameters.foam_pore_amount_adaption_threshold →
      c4w_parameters.mean_foam_pores_per_track < 10 →
      (adapt_parameters c4w_parameters c4w_desired c4w_actual).mean_diameter_of_foam_pores
          = (if c4w_parameters.mean_diameter_of_foam_pores - 1 ≤ 0 then 1
             else c4w_parameters.mean_diameter_of_foam_pores - 1) ∧
      (adapt_parameters c4w_parameters c4w_desired c4w_actual).mean_foam_pores_per_track
          = c4w_parameters.mean_foam_pores_per_track ∧
      (adapt_parameters c4w_parameters c4w_desired c4w_actual).variation_of_foam_pores_per_track
          = c4w_parameters.variation_of_foam_pores_per_track) ∧
     (c4w_actual.by_foam_pores - c4w_desired.by_foam_pores > 0 →
      ¬ (c4w_actual.by_foam_pores - c4w_desired.by_foam_pores
            < c4w_parameters.foam_pore_amount_adaption_threshold
          ∧ c4w_parameters.mean_foam_pores_per_track < 10) →
      (adapt_parameters c4w_parameters c4w_desired c4w_actual).mean_diameter_of_foam_pores
          = c4w_parameters.mean_diameter_of_foam_pores ∧
      (adapt_parameters c4w_parameters c4w_desired c4w_actual).mean_foam_pores_per_track
          = (if c4w_parameters.mean_foam_pores_per_track - 1 ≤ 0 then 1
             else c4w_parameters.mean_foam_pores_per_track - 1) ∧
      (adapt_parameters c4w_parameters c4w_desired c4w_actual).variation_of_foam_pores_per_track
          = (if c4w_parameters.mean_foam_pores_per_track - 1 ≤ 0 then
               (if c4w_parameters.variation_of_foam_pores_per_track - 1 < 0 then 0
                else c4w_parameters.variation_of_foam_pores_per_track - 1)
             else c4w_parameters.variation_of_foam_pores_per_track)) ∧
     (¬ c4w_actual.by_foam_pores - c4w_desired.by_foam_pores > 0 →
      |c4w_actual.by_foam_pores - c4w_desired.by_foam_pores|
          < c4w_parameters.foam_pore_amount_adaption_threshold →
      (adapt_parameters c4w_parameters c4w_desired c4w_actual).mean_diameter_of_foam_pores
          = c4w_parameters.mean_diameter_of_foam_pores + 1 ∧
      (adapt_parameters c4w_parameters c4w_desired c4w_actual).mean_foam_pores_per_track
          = c4w_parameters.mean_foam_pores_per_track ∧
      (adapt_parameters c4w_parameters c4w_desired c4w_actual).variation_of_foam_pores_per_track
          = c4w_parameters.variation_of_foam_pores_per_track) ∧
     (¬ c4w_actual.by_foam_pores - c4w_desired.by_foam_pores > 0 →
      ¬ |c4w_actual.by_foam_pores - c4w_desired.by_foam_pores|
          < c4w_parameters.foam_pore_amount_adaption_threshold →
      (adapt_parameters c4w_parameters c4w_desired c4w_actual).mean_diameter_of_foam_pores
          = c4w_parameters.mean_diameter_of_foam_pores ∧
      (adapt_parameters c4w_parameters c4w_desired c4w_actual).mean_foam_pores_per_track
          = c4w_parameters.mean_foam_pores_per_track + 1 ∧
      (adapt_parameters c4w_parameters c4w_desired c4w_actual).variation_of_foam_pores_per_track
          = c4w_parameters.variation_of_foam_pores_per_track)) :=
  ⟨⟨by norm_num [c4w_parameters, c4w_desired, c4w_actual, lt_abs],
    by norm_num [c4w_desired]⟩,
   c4_foam_adaption_cases c4w_parameters c4w_desired c4w_actual
     (by norm_num [c4w_parameters, c4w_desired, c4w_actual, lt_abs])
     (by norm_num [c4w_desired])⟩

/-! ### C9: crash on an empty pore-count range -/

theorem randintE_ok (rand : RandomSource) (low high : ℤ) (k : ℕ) (h : low < high) :
    randintE rand low high k = .ok (low + (rand.ints k) % (high - low), k + 1) := by
  unfold randintE
  rw [if_pos h]

theorem randintE_error (rand : RandomSource) (low high : ℤ) (k : ℕ)
    (h : ¬ low < high) :
    randintE rand low high k = .error "low >= high" := by
  unfold randintE
  rw [if_neg h]

/-- One grid cell fails with numpy's `ValueError` as soon as the
pore-count range `[mean - variation, mean + variation)` is empty
(`variation = 0`), provided pore generation is enabled and the two track
draws themselves have non-empty ranges. -/
theorem generate_cell_error (rand : RandomSource) (p : Parameters)
    (uc : UserConfig) (x y : ℤ) (k : ℕ)
    (hd : uc.desired_porosities.by_foam_pores ≠ 0)
    (hv : p.variation_of_foam_pores_per_track = 0)
    (hw : ⌊p.track_mean_width - p.track_mean_width * p.track_width_variation⌋
        < ⌈p.track_mean_width + p.track_mean_width * p.track_width_variation⌉)
    (hh : ⌊p.track_mean_height - p.track_mean_height * p.track_height_variation⌋
        < ⌈p.track_mean_height + p.track_mean_height * p.track_height_variation⌉) :
    generate_cell rand p uc x y k = .error "low >= high" := by
  have hempty : ¬ (p.mean_foam_pores_per_track - p.variation_of_foam_pores_per_track
      < p.mean_foam_pores_per_track + p.variation_of_foam_pores_per_track) := by
    rw [hv]
    simp
  unfold generate_cell
  dsimp only
  rw [randintE_ok rand _ _ _ hw]
  dsimp only [normalE]
  rw [randintE_ok rand _ _ _ hh]
  dsimp only [normalE]
  rw [if_neg hd, randintE_error rand _ _ _ hempty]

theorem generate_column_error (rand : RandomSource) (p : Parameters)
    (uc : UserConfig) (x y : ℤ) (ys : List ℤ) (k : ℕ)
    (hcell : generate_cell rand p uc x y k = .error "low >= high") :
    generate_column rand p uc x (y :: ys) k = .error "low >= high" := by
  unfold generate_column
  rw [hcell]

theorem generate_grid_error (rand : RandomSource) (p : Parameters)
    (uc : UserConfig) (x : ℤ) (xs : List ℤ) (ys : List ℤ) (k : ℕ)
    (hcol : generate_column rand p uc x ys k = .error "low >= high") :
    generate_grid rand p uc ys (x :: xs) k = .error "low >= high" := by
  unfold generate_grid
  rw [hcol]

theorem pyRange_head (stop step : ℤ) (hstop : 0 < stop) (hstep : 0 < step) :
    ∃ t, pyRange stop step = 0 :: t := by
  unfold pyRange
  rw [if_pos hstep, max_eq_left hstop.le]
  have h2 : 1 ≤ (stop + step - 1) / step := by
    rw [Int.le_ediv_iff_mul_le hstep]
    omega
  have h3 : ((stop + step - 1) / step).toNat ≠ 0 := by omega
  obtain ⟨m, hm⟩ := Nat.exists_eq_succ_of_ne_zero h3
  rw [hm, List.range_succ_eq_map, List.map_cons]
  refine ⟨List.map (fun (i : ℕ) => (i : ℤ) * step) (List.map Nat.succ (List.range m)), ?_⟩
  norm_num

/-- Starting point of the C9 reachability scenario: the feedback loop is
one adaptation step away from a crashing parameter state. -/
def c9_parameters : Parameters :=
  { mean_foam_pores_per_track := 1, variation_of_foam_pores_per_track := 1 }

def c9_desired : Porosities := { total := 50, by_foam_pores := 10 }

def c9_actual : Porosities := { total := 50, by_foam_pores := 20 }

def c9_user_config : UserConfig :=
  { layer_height := 40, layer_width_to_layer_height_ratio := 5/4,
    desired_porosities := c9_desired, output_folder := "out" }

/-- C9: whenever pore generation is enabled
(`desired.by_foam_pores ≠ 0`) and `variation_of_foam_pores_per_track` has
reached 0, `generate_objects` raises numpy's `ValueError` (`low >= high`,
the empty half-open range `[mean, mean)`) instead of returning the two
shape lists — for every random stream and draw counter, given the normal
operating conditions (positive grid pitches and image size, non-empty
track draw ranges). Moreover this state is reachable from a running
loop: one `adapt_parameters` call on `c9_parameters` (count 1,
variation 1, measured foam porosity far above desired) floors the count
at 1 and decrements the variation to 0, while that configuration keeps
pore generation enabled. -/
theorem c9_empty_pore_range_crash (rand : RandomSource) (k : ℕ)
    (p : Parameters) (uc : UserConfig)
    (hd : uc.desired_porosities.by_foam_pores ≠ 0)
    (hv : p.variation_of_foam_pores_per_track = 0)
    (hlw : 0 < npRound ((uc.layer_height : ℚ) * uc.layer_width_to_layer_height_ratio))
    (hlh : 0 < uc.layer_height)
    (hiw : 0 < p.image_width) (hih : 0 < p.image_height)
    (hw : ⌊p.track_mean_width - p.track_mean_width * p.track_width_variation⌋
        < ⌈p.track_mean_width + p.track_mean_width * p.track_width_variation⌉)
    (hh : ⌊p.track_mean_height - p.track_mean_height * p.track_height_variation⌋
        < ⌈p.track_mean_height + p.track_mean_height * p.track_height_variation⌉) :
    generate_objects rand p uc k = .error "low >= high" ∧
    (adapt_parameters c9_parameters c9_desired c9_actual).mean_foam_pores_per_track = 1 ∧
    (adapt_parameters c9_parameters c9_desired c9_actual).variation_of_foam_pores_per_track = 0 ∧
    c9_user_config.desired_porosities.by_foam_pores ≠ 0 := by
  refine ⟨?_, ?_, ?_, by norm_num [c9_user_config, c9_desired]⟩
  · unfold generate_objects
    dsimp only
    rw [if_neg (not_not_intro hlw), if_neg (not_not_intro hlh)]
    obtain ⟨xs, hxs⟩ := pyRange_head p.image_width _ hiw hlw
    obtain ⟨ys, hys⟩ := pyRange_head p.image_height _ hih hlh
    rw [hxs, hys]
    exact generate_grid_error rand p uc 0 xs (0 :: ys) k
      (generate_column_error rand p uc 0 0 ys k
        (generate_cell_error rand p uc 0 0 k hd hv hw hh))
  all_goals {
    obtain ⟨e1, e2, e3, e4, e5⟩ :=
      track_step_foam_fields c9_parameters c9_desired c9_actual
    obtain ⟨f1, f2, f3⟩ := adapt_parameters_final_foam_fields c9_parameters c9_desired
      c9_actual (by norm_num [c9_desired])
    obtain ⟨g1, g2, g3⟩ := foam_step_amount_shrink
      (adapt_parameters_track_step c9_parameters c9_desired c9_actual)
      c9_desired c9_actual
      (by rw [e1]; norm_num [c9_parameters, c9_desired, c9_actual, lt_abs])
      (by norm_num [c9_desired, c9_actual])
      (by rw [e2, e4]; norm_num [c9_parameters, c9_desired, c9_actual])
    first
    | (rw [f2, g2, e4]; norm_num [c9_parameters])
    | (rw [f3, g3, e4, e5]; norm_num [c9_parameters])
  }

def zero_rand : RandomSource := { ints := fun _ => 0, normals := fun _ => 0 }

def c9w_parameters : Parameters := { variation_of_foam_pores_per_track := 0 }

theorem c9_witness :
    (c9_user_config.desired_porosities.by_foam_pores ≠ 0 ∧
     c9w_parameters.variation_of_foam_pores_per_track = 0 ∧
     0 < npRound ((c9_user_config.layer_height : ℚ)
        * c9_user_config.layer_width_to_layer_height_ratio) ∧
     0 < c9_user_config.layer_height ∧
     0 < c9w_parameters.image_width ∧ 0 < c9w_parameters.image_height ∧
     ⌊c9w_parameters.track_mean_width
        - c9w_parameters.track_mean_width * c9w_parameters.track_width_variation⌋
       < ⌈c9w_parameters.track_mean_width
        + c9w_parameters.track_mean_width * c9w_parameters.track_width_variation⌉ ∧
     ⌊c9w_parameters.track_mean_height
        - c9w_parameters.track_mean_height * c9w_parameters.track_height_variation⌋
       < ⌈c9w_parameters.track_mean_height
        + c9w_parameters.track_mean_height * c9w_parameters.track_height_variation⌉) ∧
    (generate_objects zero_rand c9w_parameters c9_user_config 0
        = .error "low >= high" ∧
     (adapt_parameters c9_parameters c9_desired c9_actual).mean_foam_pores_per_track = 1 ∧
     (adapt_parameters c9_parameters c9_desired c9_actual).variation_of_foam_pores_per_track = 0 ∧
     c9_user_config.desired_porosities.by_foam_pores ≠ 0) :=
  ⟨⟨by norm_num [c9_user_config, c9_desired],
    by norm_num [c9w_parameters],
    by norm_num [c9_user_config, npRound],
    by norm_num [c9_user_config],
    by norm_num [c9w_parameters],
    by norm_num [c9w_parameters],
    by norm_num [c9w_parameters, Int.lt_ceil],
    by norm_num [c9w_parameters, Int.lt_ceil]⟩,
   c9_empty_pore_range_crash zero_rand 0 c9w_parameters c9_user_config
     (by norm_num [c9_user_config, c9_desired])
     (by norm_num [c9w_parameters])
     (by norm_num [c9_user_config, npRound])
     (by norm_num [c9_user_config])
     (by norm_num [c9w_parameters])
     (by norm_num [c9w_parameters])
     (by norm_num [c9w_parameters, Int.lt_ceil])
     (by norm_num [c9w_parameters, Int.lt_ceil])⟩

end ArtificialAMF
